import Mathlib

/-!
Shallow embedding of the topology-derivation and blocking-diagnosis core of
the A/B Street fork `tordans/abstreet`, restricted to the code under:

* `map_model/src/objects/lane.rs` (lane types, parking capacity, turn
  restrictions, block tracing),
* `game/src/debug/blocked_by.rs` (blocking graph, root-cause tracer),
* `headless/src/main.rs` (headless driver startup and stepping loop).

Machine floats (`f64` behind `geom::Distance`) are embedded as exact
rationals; strings as Lean strings; fallible code as `Option`; Rust panics
as a distinguished `none` / error constructor.
-/

namespace Abstreet

/-- `geom::Distance` wraps a length in meters; embedded as an exact rational. -/
abbrev Distance := ℚ

/-- `pub const PARKING_SPOT_LENGTH: Distance = Distance::const_meters(8.0);`
(lane.rs line 14). -/
def PARKING_SPOT_LENGTH : Distance := 8

/-- `pub const PARKING_LOT_SPOT_LENGTH: Distance = Distance::const_meters(6.4);`
(lane.rs line 17), 0.8 of the on-street constant. -/
def PARKING_LOT_SPOT_LENGTH : Distance := 32 / 5

/-- `pub enum LaneType` (lane.rs lines 35-47). -/
inductive LaneType where
  | Driving
  | Parking
  | Sidewalk
  | Shoulder
  | Biking
  | Bus
  | SharedLeftTurn
  | Construction
  | LightRail
deriving DecidableEq, Repr

/-- The fields of `pub struct Lane` (lane.rs lines 109-126) used by the
embedded operations.  The source stores a centerline `PolyLine` and derives
`length()` from it; the embedding stores the length directly, since no
embedded operation inspects the individual points. -/
structure Lane where
  id : Nat
  parent : Nat
  lane_type : LaneType
  length : Distance
  src_i : Nat
  dst_i : Nat
deriving DecidableEq, Repr

/-- `Lane::number_parking_spots` (lane.rs lines 181-190):

```
assert_eq!(self.lane_type, LaneType::Parking);
let spots = (self.length() / PARKING_SPOT_LENGTH).floor() - 2.0;
if spots >= 1.0 { spots as usize } else { 0 }
```

The `assert_eq!` panic is embedded as `none`. -/
def numberParkingSpots (l : Lane) : Option Nat :=
  if l.lane_type = LaneType.Parking then
    let spots : Int := ⌊l.length / PARKING_SPOT_LENGTH⌋ - 2
    some (if 1 ≤ spots then spots.toNat else 0)
  else
    none

/-- `map_model::Direction` (not under `src/`; only the two variants used by
`get_turn_restrictions`). -/
inductive Direction where
  | Fwd
  | Back
deriving DecidableEq, Repr

/-- `map_model::TurnType`, modelled from the spec: "the geometric class of a
permitted movement through an intersection (straight, left, right)" — the
three variants produced by `get_turn_restrictions`. -/
inductive TurnType where
  | Straight
  | Left
  | Right
deriving DecidableEq, Repr

/-- `osm::ENDPT_FWD`, modelled from the spec: the "explicit forward-endpoint
marker" tag key (the `osm` module is not under `src/`; the key's literal
spelling is immaterial to every claim). -/
def ENDPT_FWD : String := "abst:endpt_fwd"

/-- `osm::ENDPT_BACK`, modelled from the spec: the backward-endpoint marker
tag key, counterpart of `ENDPT_FWD`. -/
def ENDPT_BACK : String := "abst:endpt_back"

/-- The fields of `map_model::Road` read by `get_turn_restrictions` and
`trace_around_block`, modelled from the spec: "holds tag key/value pairs,
ordered lane-to-left/right lists per direction, and orientation endpoints"
(`road.rs` is not under `src/`).  `children_fwd`/`children_back` are the
ordered `(LaneID, LaneType)` lists returned by `Road::children(dir)`;
`lanes_ltr` is the full left-to-right lane-id list read by the block
tracer (`lanes_ltr()[0]` / `.last()`). -/
structure Road where
  id : Nat
  osm_tags : List (String × String)
  children_fwd : List (Nat × LaneType)
  children_back : List (Nat × LaneType)
  src_i : Nat
  dst_i : Nat
  lanes_ltr : List Nat
  is_footway : Bool
deriving DecidableEq, Repr

/-- `Tags::get`: first value stored under the key. -/
def tagGet (tags : List (String × String)) (k : String) : Option String :=
  (tags.find? (fun p => p.1 == k)).map Prod.snd

/-- `Tags::contains_key`. -/
def tagContains (tags : List (String × String)) (k : String) : Bool :=
  (tagGet tags k).isSome

/-- `Road::children(dir)`: the ordered lane list for one direction. -/
def Road.children (r : Road) (dir : Direction) : List (Nat × LaneType) :=
  match dir with
  | Direction.Fwd => r.children_fwd
  | Direction.Back => r.children_back

/-- `Road::dir(lane)`, modelled from the spec: a lane's direction is the
side of the road whose ordered lane list contains it. -/
def Road.dir (r : Road) (lane : Nat) : Direction :=
  if (r.children_fwd.map Prod.fst).contains lane then Direction.Fwd
  else Direction.Back

/-- Rust `str::split(sep)` on a character list: splitting the empty string
yields one empty piece, and separators at either end yield empty pieces. -/
def splitChar (sep : Char) : List Char → List (List Char)
  | [] => [[]]
  | c :: rest =>
    match splitChar sep rest with
    | [] => [[]]
    | g :: gs => if c = sep then [] :: g :: gs else (c :: g) :: gs

/-- Rust `str::split(sep)` lifted to `String`. -/
def rustSplit (sep : Char) (s : String) : List String :=
  (splitChar sep s.toList).map (fun cs => String.mk cs)

/-- The token→turn-type table inside `get_turn_restrictions` (lane.rs lines
272-293): the `match` arms of the `flat_map` over the `';'`-separated pieces
of the positionally matched token.  Unrecognized pieces are warned about and
contribute nothing. -/
def pieceTurns (s : String) : List TurnType :=
  if s = "left" ∨ s = "left\\left" then [TurnType.Left]
  else if s = "right" then [TurnType.Right]
  else if s = "through" ∨ s = "" then [TurnType.Straight]
  else if s = "slight_right" ∨ s = "slight right" ∨ s = "merge_to_right" ∨
      s = "sharp_right" then [TurnType.Straight, TurnType.Right]
  else if s = "slight_left" ∨ s = "slight left" ∨ s = "merge_to_left" ∨
      s = "sharp_left" then [TurnType.Straight, TurnType.Left]
  else if s = "reverse" then [TurnType.Left]
  else []

/-- Lane.rs lines 239-247: the applicable turn-lane tag value for this
lane's direction — `turn:lanes:forward` falling back to `turn:lanes` when
the road carries the forward-endpoint marker, `turn:lanes:backward` when it
carries the backward marker, nothing otherwise. -/
def applicableTurnTag (lane : Lane) (road : Road) : Option String :=
  let dir := road.dir lane.id
  if dir = Direction.Fwd ∧ tagContains road.osm_tags ENDPT_FWD then
    (tagGet road.osm_tags "turn:lanes:forward").orElse
      (fun _ => tagGet road.osm_tags "turn:lanes")
  else if dir = Direction.Back ∧ tagContains road.osm_tags ENDPT_BACK then
    tagGet road.osm_tags "turn:lanes:backward"
  else none

/-- Lane.rs lines 250-255: the ordered driving/bus lanes on the lane's side
of the road. -/
def drivingBusLanes (road : Road) (dir : Direction) : List Nat :=
  ((road.children dir).filter
    (fun p => p.2 == LaneType.Driving || p.2 == LaneType.Bus)).map Prod.fst

/-- Lane.rs lines 248-261: the `'|'`-separated token aligned positionally
with the queried lane, `none` when the token count mismatches the lane
count or the lane is not among the driving/bus lanes. -/
def matchedToken (lane : Lane) (road : Road) : Option String :=
  match applicableTurnTag lane road with
  | none => none
  | some all =>
    let parts := rustSplit '|' all
    let lanes := drivingBusLanes road (road.dir lane.id)
    if parts.length ≠ lanes.length then none
    else match lanes.findIdx? (fun l => l == lane.id) with
      | none => none
      | some idx => parts.get? idx

/-- `Lane::get_turn_restrictions` (lane.rs lines 233-296).  `None` for
non-driving lanes, missing/mismatched tag data and the literal
no-restriction tokens; otherwise the `BTreeSet` collected from the
token→turn-type table over the `';'`-separated pieces. -/
def getTurnRestrictions (lane : Lane) (road : Road) : Option (Finset TurnType) :=
  if lane.lane_type ≠ LaneType.Driving then none
  else match matchedToken lane road with
    | none => none
    | some part =>
      if part = "no" ∨ part = "none" ∨ part = "yes" ∨ part = "psv" ∨
          part = "bus" then none
      else if part = "" then none
      else some ((rustSplit ';' part).flatMap pieceTurns).toFinset

/-- `sim::DelayCause` (blocked_by.rs usage; the `sim` crate is not under
`src/`), from the spec's data model: "either blocked by another agent
(holds that agent's id) or blocked by an intersection (holds the
intersection id)".  `AgentID`s and `IntersectionID`s are embedded as
naturals. -/
inductive DelayCause where
  | Agent (a : Nat)
  | Intersection (i : Nat)
deriving DecidableEq, Repr

/-- The `Viewer::graph` field: `BTreeMap<AgentID, (Duration, DelayCause)>`
(blocked_by.rs line 18), embedded as an association list keyed by agent id
with durations as exact rationals. -/
abbrev BlockingGraph := List (Nat × ℚ × DelayCause)

/-- `self.graph.get(&id)`. -/
def graphGet (g : BlockingGraph) (a : Nat) : Option (ℚ × DelayCause) :=
  (g.find? (fun p => p.1 == a)).map Prod.snd

/-- `Viewer::arrow_for` (blocked_by.rs lines 62-80), embedded by its control
effects: whether an arrow is produced (`ok true`), no arrow (`ok false`,
when the agent has no graph entry or its blocking agent has no recorded
position), or a panic (`error`, the `self.agent_positions[&id]` index when
the queried agent itself has no position).  `pos` is the key list of
`agent_positions`; arrow geometry (`PolyLine::must_new`, colors) lives in
the external `geom`/`widgetry` crates and is not modelled. -/
def arrowFor (g : BlockingGraph) (pos : List Nat) (id : Nat) :
    Except Unit Bool :=
  match graphGet g id with
  | none => Except.ok false
  | some (_, DelayCause.Agent a) =>
    if pos.contains a then
      if pos.contains id then Except.ok true else Except.error ()
    else Except.ok false
  | some (_, DelayCause.Intersection _) =>
    if pos.contains id then Except.ok true else Except.error ()

/-- The terminal reason produced by `Viewer::trace_root_cause`
(blocked_by.rs lines 92, 104, 108): the formatted strings
`"cycle involving {agent}"`, `intersection.to_string()` and
`agent.to_string()` are embedded as tagged values. -/
inductive TraceReason where
  | cycle (a : Nat)
  | intersection (i : Nat)
  | movingAgent (a : Nat)
deriving DecidableEq, Repr

/-- The loop of `Viewer::trace_root_cause` (blocked_by.rs lines 84-114),
with explicit fuel: `none` means the fuel ran out before the loop stopped;
`some` carries the loop's outcome — a panic propagated from `arrow_for`, or
the list of agents an arrow was pushed for (the hops) together with the
terminal reason. -/
def traceRootCauseAux (g : BlockingGraph) (pos : List Nat) :
    Nat → List Nat → List Nat → Nat →
    Option (Except Unit (List Nat × TraceReason))
  | 0, _, _, _ => none
  | fuel + 1, seen, batch, current =>
    if seen.contains current then
      some (Except.ok (batch, TraceReason.cycle current))
    else
      let seen' := current :: seen
      match arrowFor g pos current with
      | Except.error _ => some (Except.error ())
      | Except.ok b =>
        let batch' := if b then batch ++ [current] else batch
        match graphGet g current with
        | some (_, DelayCause.Agent a) =>
          traceRootCauseAux g pos fuel seen' batch' a
        | some (_, DelayCause.Intersection i) =>
          some (Except.ok (batch', TraceReason.intersection i))
        | none =>
          some (Except.ok (batch', TraceReason.movingAgent current))

/-- `Viewer::trace_root_cause(start)`, run with fuel one more than the
number of graph entries (shown sufficient below). -/
def traceRootCause (g : BlockingGraph) (pos : List Nat) (start : Nat) :
    Option (Except Unit (List Nat × TraceReason)) :=
  traceRootCauseAux g pos (g.length + 1) [] [] start

/-- The fields of `map_model::Intersection` read by `trace_around_block`.
`roads_sorted` is the result of `get_roads_sorted_by_incoming_angle` — a
geometric sort living outside `src/`, embedded as stored per-intersection
data (its ordering is arbitrary here). -/
structure Intersection where
  id : Nat
  roads_sorted : List Nat
deriving DecidableEq, Repr

/-- The slice of `map_model::Map` read by `trace_around_block`: the lane,
road and intersection tables behind `get_l` / `get_r` / `get_i` /
`get_parent` / `all_roads`. -/
structure MapModel where
  lanes : List Lane
  roads : List Road
  intersections : List Intersection
deriving Repr

/-- `Map::get_l`; the source panics on an unknown id, callers below treat
`none` as that panic. -/
def MapModel.get_l (m : MapModel) (id : Nat) : Option Lane :=
  m.lanes.find? (fun l => l.id == id)

/-- `Map::get_r`. -/
def MapModel.get_r (m : MapModel) (id : Nat) : Option Road :=
  m.roads.find? (fun r => r.id == id)

/-- `Map::get_i`. -/
def MapModel.get_i (m : MapModel) (id : Nat) : Option Intersection :=
  m.intersections.find? (fun i => i.id == id)

/-- `Map::get_parent(lane)`: the road owning a lane. -/
def MapModel.get_parent (m : MapModel) (laneId : Nat) : Option Road :=
  (m.get_l laneId).bind (fun l => m.get_r l.parent)

/-- `abstutil::wraparound_get(vec, idx)` (not under `src/`): the element at
`idx` modulo the length, on the mathematical (non-negative) remainder;
`none` on the empty list, where the source would panic. -/
def wraparoundGet (l : List α) (idx : Int) : Option α :=
  l.get? ((idx % (l.length : Int)).toNat % l.length)

/-- The geometric operations `trace_around_block` delegates to the `geom`
crate (not under `src/` and out of the spec's scope): the
boundary-following points of a lane traversed forward or reversed
(`lane_center_pts.shift_left(width/2)`, `none` when the shift fails and the
source `.unwrap()` panics), the shorter arc of an intersection's boundary
ring between two points (`get_shorter_slice_btwn`), and ring/polygon
construction (`Ring::new(pts).ok()`, `none` when the ring is invalid).  The
point type is abstract. -/
structure TraceGeom (Pt : Type) where
  laneEdgePts : Nat → Bool → Option (List Pt)
  intersectionSlice : Nat → Pt → Pt → Option (List Pt)
  ringPolygon : List Pt → Option Unit

/-- The evolving state of the `trace_around_block` loop: the accumulated
boundary points, the current lane, the direction flag and the visited set
(blocked_by of lane.rs lines 304-308). -/
structure TraceState (Pt : Type) where
  pts : List Pt
  current : Nat
  fwd : Bool
  visited : List Nat

/-- One loop iteration's outcome. -/
inductive TraceStep (Pt : Type) where
  | panic
  | fail
  | done (pts : List Pt) (visited : List Nat)
  | next (st : TraceState Pt)

/-- Lane.rs lines 318-331: when the previous accumulated point does not
match the new lane's first edge point, bridge the gap with the shorter arc
of the last intersection's boundary ring (when one exists; a missing arc
just skips the bridge).  `error` is the `lane_pts[0]` index panic on an
empty edge-point list. -/
def bridgeGap [DecidableEq Pt] (geo : TraceGeom Pt) (l : Lane) (fwd : Bool)
    (pts : List Pt) (lanePts : List Pt) : Except Unit (List Pt) :=
  match pts.getLast? with
  | none => Except.ok pts
  | some last_pt =>
    match lanePts.head? with
    | none => Except.error ()
    | some p0 =>
      if last_pt ≠ p0 then
        let last_i := if fwd then l.src_i else l.dst_i
        match geo.intersectionSlice last_i last_pt p0 with
        | some pl => Except.ok (pts ++ pl)
        | none => Except.ok pts
      else Except.ok pts

/-- Lane.rs line 341: the intersection's angle-sorted roads with footways
removed. -/
def nonFootwayRoads (m : MapModel) (inter : Intersection) : List Nat :=
  inter.roads_sorted.filter
    (fun r => match m.get_r r with
      | some rd => !rd.is_footway
      | none => false)

/-- Lane.rs lines 342-344: position of the current road among the sorted
non-footway roads, then the next road counter-clockwise via
`wraparound_get`; `none` stands for the source's `.unwrap()` panic. -/
def nextRoadCCW (m : MapModel) (inter : Intersection) (parent : Nat) :
    Option Nat :=
  match (nonFootwayRoads m inter).findIdx? (fun r => r == parent) with
  | none => none
  | some idx => wraparoundGet (nonFootwayRoads m inter) ((idx : Int) + 1)

/-- Lane.rs line 335: the intersection the walk is pointing to — `dst_i`
when traveling the lane forward, `src_i` when reversed. -/
def endIntersection (l : Lane) (fwd : Bool) : Nat :=
  if fwd then l.dst_i else l.src_i

/-- One iteration of the `trace_around_block` loop (lane.rs lines 309-362):
compute the lane's edge points, bridge any gap from the previous points
across the intersection ring, pick the next road counter-clockwise among
the non-footway roads sorted by incoming angle, take its leftmost or
rightmost lane, and either close the walk, report a revisit, or advance.
Every `.unwrap()` / panicking index of the source is `TraceStep.panic`. -/
def traceStep [DecidableEq Pt] (m : MapModel) (geo : TraceGeom Pt)
    (start : Nat) (st : TraceState Pt) : TraceStep Pt :=
  match m.get_l st.current with
  | none => TraceStep.panic
  | some l =>
    match geo.laneEdgePts st.current st.fwd with
    | none => TraceStep.panic
    | some lanePts =>
      match bridgeGap geo l st.fwd st.pts lanePts with
      | Except.error _ => TraceStep.panic
      | Except.ok ptsBridged =>
        match m.get_i (endIntersection l st.fwd) with
        | none => TraceStep.panic
        | some inter =>
          if inter.roads_sorted.any (fun r => (m.get_r r).isNone) then
            TraceStep.panic
          else
            match nextRoadCCW m inter l.parent with
            | none => TraceStep.panic
            | some nextRoadId =>
              match m.get_r nextRoadId with
              | none => TraceStep.panic
              | some next_road =>
                match (if next_road.src_i = endIntersection l st.fwd then
                    next_road.lanes_ltr.head?
                  else next_road.lanes_ltr.getLast?) with
                | none => TraceStep.panic
                | some next_lane =>
                  if next_lane = start then
                    TraceStep.done (ptsBridged ++ lanePts) st.visited
                  else if st.visited.contains st.current then TraceStep.fail
                  else
                    match m.get_l next_lane with
                    | none => TraceStep.panic
                    | some nl =>
                      TraceStep.next
                        ⟨ptsBridged ++ lanePts, next_lane,
                          nl.src_i == endIntersection l st.fwd,
                          st.current :: st.visited⟩

/-- The overall outcome of `trace_around_block`: a source panic, `None`
(revisit before closing, or an invalid ring), or `Some((polygon,
visited))` embedded by its visited-lane set. -/
inductive TraceOutcome where
  | panic
  | failure
  | success (visited : List Nat)
deriving DecidableEq, Repr

/-- After the loop breaks (lane.rs lines 363-365): close the point list
with its first point, dedup, and build the ring — `None` when the ring is
invalid, panic when `pts` is empty (`pts[0]`). -/
def traceFinish [DecidableEq Pt] (geo : TraceGeom Pt) (pts : List Pt)
    (visited : List Nat) : TraceOutcome :=
  match pts.head? with
  | none => TraceOutcome.panic
  | some p0 =>
    match geo.ringPolygon ((pts ++ [p0]).dedup) with
    | none => TraceOutcome.failure
    | some _ => TraceOutcome.success visited

/-- The fueled `trace_around_block` loop; `none` means the fuel ran out
before the loop stopped. -/
def traceLoop [DecidableEq Pt] (m : MapModel) (geo : TraceGeom Pt)
    (start : Nat) : Nat → TraceState Pt → Option TraceOutcome
  | 0, _ => none
  | fuel + 1, st =>
    match traceStep m geo start st with
    | TraceStep.panic => some TraceOutcome.panic
    | TraceStep.fail => some TraceOutcome.failure
    | TraceStep.done pts visited => some (traceFinish geo pts visited)
    | TraceStep.next st' => traceLoop m geo start fuel st'

/-- `Lane::trace_around_block` (lane.rs lines 303-366): initialize
`fwd = map.get_parent(start).lanes_ltr()[0] == start` and run the loop,
with fuel one more than the number of lanes (shown sufficient below). -/
def traceAroundBlock [DecidableEq Pt] (m : MapModel) (geo : TraceGeom Pt)
    (start : Nat) : Option TraceOutcome :=
  match m.get_parent start with
  | none => some TraceOutcome.panic
  | some r =>
    match r.lanes_ltr.head? with
    | none => some TraceOutcome.panic
    | some first =>
      traceLoop m geo start (m.lanes.length + 1)
        ⟨[], start, first == start, []⟩

/-- Headless driver, main.rs lines 55-63: resolve the `--save_at` flag
before the stepping loop; an unparseable time string is a
`panic!("Couldn't parse time {}", time_str)`.  `sim::Tick::parse` lives in
the `sim` crate (not under `src/`), so the driver is embedded over an
arbitrary parse function; `Tick`s are embedded as naturals. -/
def headlessSaveAt (save_at : Option String)
    (parse : String → Option Nat) : Except String (Option Nat) :=
  match save_at with
  | some time_str =>
    match parse time_str with
    | some t => Except.ok (some t)
    | none => Except.error ("Couldn't parse time " ++ time_str)
  | none => Except.ok none

/-- Headless driver, main.rs lines 55-75: after resolving `save_at` the
driver enters the unconditional stepping loop (`sim.step` once per
iteration, forever); the embedding observes the number of `step` calls made
in the first `fuel` iterations.  `error` is the startup panic, before any
step. -/
def headlessRun (save_at : Option String) (parse : String → Option Nat)
    (fuel : Nat) : Except String Nat :=
  match headlessSaveAt save_at parse with
  | Except.error e => Except.error e
  | Except.ok _ => Except.ok fuel

end Abstreet

namespace Abstreet

/-- Helper: on a parking lane, `number_parking_spots` computes the clamped
floor formula.  Shared by the parking-capacity theorems below. -/
lemma numberParkingSpots_parking (l : Lane) (h : l.lane_type = LaneType.Parking) :
    numberParkingSpots l = some (⌊l.length / PARKING_SPOT_LENGTH⌋ - 2).toNat := by
  have e : numberParkingSpots l =
      some (if 1 ≤ ⌊l.length / PARKING_SPOT_LENGTH⌋ - 2
        then (⌊l.length / PARKING_SPOT_LENGTH⌋ - 2).toNat else 0) := by
    simp [numberParkingSpots, h]
  rw [e]
  congr 1
  split
  · rfl
  · omega

/-- Helper: the concrete floor value for a 25-meter lane. -/
lemma floor_25_div_8 : ⌊(25 : ℚ) / PARKING_SPOT_LENGTH⌋ = 3 := by
  simp only [PARKING_SPOT_LENGTH]
  rw [Int.floor_eq_iff]
  norm_num

/-- C7: For every parking lane, `number_parking_spots` returns
`floor(length / 8.0) - 2` when that value is at least 1, and 0 otherwise
(equivalently, the value clamped at zero); a lane of length 25.0 with the
on-street spot length 8.0 yields exactly 1 spot. -/
theorem parking_spots_formula (l : Lane) (h : l.lane_type = LaneType.Parking) :
    numberParkingSpots l = some (⌊l.length / PARKING_SPOT_LENGTH⌋ - 2).toNat ∧
    numberParkingSpots ⟨0, 0, LaneType.Parking, 25, 0, 1⟩ = some 1 := by
  refine ⟨numberParkingSpots_parking l h, ?_⟩
  rw [numberParkingSpots_parking ⟨0, 0, LaneType.Parking, 25, 0, 1⟩ rfl]
  simp [floor_25_div_8]

/-- Witness for `parking_spots_formula` at a concrete parking lane of
length 25. -/
theorem parking_spots_formula_witness :
    numberParkingSpots ⟨0, 0, LaneType.Parking, 25, 0, 1⟩ =
      some (⌊(25 : ℚ) / PARKING_SPOT_LENGTH⌋ - 2).toNat :=
  (parking_spots_formula ⟨0, 0, LaneType.Parking, 25, 0, 1⟩ rfl).1

/-- C8: `number_parking_spots` is monotonically non-decreasing in lane
length, and returns 0 for any parking lane whose length is at most
2 × 8.0 = 16.0. -/
theorem parking_spots_monotone (l₁ l₂ : Lane)
    (h₁ : l₁.lane_type = LaneType.Parking) (h₂ : l₂.lane_type = LaneType.Parking)
    (hlen : l₁.length ≤ l₂.length) :
    (∀ n₁ n₂, numberParkingSpots l₁ = some n₁ → numberParkingSpots l₂ = some n₂ →
      n₁ ≤ n₂) ∧
    (l₁.length ≤ 16 → numberParkingSpots l₁ = some 0) := by
  have key := numberParkingSpots_parking
  constructor
  · intro n₁ n₂ e₁ e₂
    rw [key l₁ h₁] at e₁
    rw [key l₂ h₂] at e₂
    injection e₁ with e₁
    injection e₂ with e₂
    subst e₁
    subst e₂
    have hdiv : l₁.length / PARKING_SPOT_LENGTH ≤ l₂.length / PARKING_SPOT_LENGTH := by
      apply div_le_div_of_nonneg_right hlen
      norm_num [PARKING_SPOT_LENGTH]
    have hfloor := Int.floor_le_floor hdiv
    omega
  · intro hshort
    rw [key l₁ h₁]
    have hdiv : l₁.length / PARKING_SPOT_LENGTH ≤ 2 := by
      rw [div_le_iff₀ (by norm_num [PARKING_SPOT_LENGTH])]
      calc l₁.length ≤ 16 := hshort
        _ = 2 * PARKING_SPOT_LENGTH := by norm_num [PARKING_SPOT_LENGTH]
    have : ⌊l₁.length / PARKING_SPOT_LENGTH⌋ ≤ 2 := by
      have := Int.floor_le_floor hdiv
      simpa using this
    have hz : (⌊l₁.length / PARKING_SPOT_LENGTH⌋ - 2).toNat = 0 := by omega
    rw [hz]

/-- Witness for `parking_spots_monotone`: concrete parking lanes of lengths
12 and 20; the short one gets 0 spots. -/
theorem parking_spots_monotone_witness :
    numberParkingSpots ⟨0, 0, LaneType.Parking, 12, 0, 1⟩ = some 0 :=
  (parking_spots_monotone ⟨0, 0, LaneType.Parking, 12, 0, 1⟩
    ⟨1, 0, LaneType.Parking, 20, 0, 1⟩ rfl rfl (by norm_num)).2 (by norm_num)

/-- C10: `number_parking_spots` asserts the lane's type is `Parking` and
panics (`assert_eq!` failure, embedded as `none`) on a lane of any other
type; on a parking lane the assertion passes and a count is returned. -/
theorem parking_spots_assert (l : Lane) :
    (l.lane_type ≠ LaneType.Parking → numberParkingSpots l = none) ∧
    (l.lane_type = LaneType.Parking → ∃ n, numberParkingSpots l = some n) := by
  constructor
  · intro h
    simp [numberParkingSpots, h]
  · intro h
    exact ⟨_, numberParkingSpots_parking l h⟩

/-- Witness for `parking_spots_assert`: a sidewalk lane panics the
assertion; a parking lane yields a count. -/
theorem parking_spots_assert_witness :
    numberParkingSpots ⟨0, 0, LaneType.Sidewalk, 25, 0, 1⟩ = none ∧
    ∃ n, numberParkingSpots ⟨0, 0, LaneType.Parking, 25, 0, 1⟩ = some n :=
  ⟨(parking_spots_assert ⟨0, 0, LaneType.Sidewalk, 25, 0, 1⟩).1 (by decide),
   (parking_spots_assert ⟨0, 0, LaneType.Parking, 25, 0, 1⟩).2 rfl⟩

end Abstreet

namespace Abstreet

/-- Helper: when `get_turn_restrictions` returns a set, the matched token
exists, is none of the literal no-restriction tokens, and the set is the
`BTreeSet` collected from the piece table over its `';'` pieces. -/
lemma getTurnRestrictions_some_eq (lane : Lane) (road : Road) (s : Finset TurnType)
    (h : getTurnRestrictions lane road = some s) :
    ∃ part, matchedToken lane road = some part ∧
      ¬(part = "no" ∨ part = "none" ∨ part = "yes" ∨ part = "psv" ∨
        part = "bus") ∧ part ≠ "" ∧
      s = ((rustSplit ';' part).flatMap pieceTurns).toFinset := by
  by_cases hd : lane.lane_type ≠ LaneType.Driving
  · simp [getTurnRestrictions, hd] at h
  · cases hmt : matchedToken lane road with
    | none => simp [getTurnRestrictions, hd, hmt] at h
    | some part =>
      refine ⟨part, rfl, ?_⟩
      by_cases h5 : part = "no" ∨ part = "none" ∨ part = "yes" ∨ part = "psv" ∨
          part = "bus"
      · simp [getTurnRestrictions, hd, hmt, h5] at h
      · by_cases he : part = ""
        · simp [getTurnRestrictions, hd, hmt, h5, he] at h
        · refine ⟨h5, he, ?_⟩
          simp [getTurnRestrictions, hd, hmt, h5, he] at h
          exact h.symm

/-- Helper: `toFinset` of a `flatMap` is the right fold of set unions of the
per-element `toFinset`s. -/
lemma toFinset_flatMap (l : List String) (f : String → List TurnType) :
    (l.flatMap f).toFinset =
      l.foldr (fun p acc => (f p).toFinset ∪ acc) ∅ := by
  induction l with
  | nil => simp
  | cons a t ih => simp [List.flatMap_cons, List.toFinset_append, ih]

/-- C3: `get_turn_restrictions` returns `None` ("not applicable") when the
lane is not a driving lane; when no applicable turn-lane tag exists for the
lane's direction; when the `'|'`-token count differs from the number of
driving/bus lanes on that side (warned, never fatal); and when the token
aligned with the queried lane is one of `no`/`none`/`yes`/`psv`/`bus` or
the empty string. -/
theorem turn_restrictions_none_cases (lane : Lane) (road : Road) :
    (lane.lane_type ≠ LaneType.Driving → getTurnRestrictions lane road = none) ∧
    (applicableTurnTag lane road = none → getTurnRestrictions lane road = none) ∧
    (∀ all, applicableTurnTag lane road = some all →
      (rustSplit '|' all).length ≠
        (drivingBusLanes road (road.dir lane.id)).length →
      getTurnRestrictions lane road = none) ∧
    (∀ part, matchedToken lane road = some part →
      part = "no" ∨ part = "none" ∨ part = "yes" ∨ part = "psv" ∨
        part = "bus" ∨ part = "" →
      getTurnRestrictions lane road = none) := by
  refine ⟨fun hd => by simp [getTurnRestrictions, hd], ?_, ?_, ?_⟩
  · intro h
    have hmt : matchedToken lane road = none := by
      simp [matchedToken, h]
    simp [getTurnRestrictions, hmt]
  · intro all h hcount
    have hmt : matchedToken lane road = none := by
      simp only [matchedToken, h]
      simp [hcount]
    simp [getTurnRestrictions, hmt]
  · intro part hmt hno
    rcases hno with h5 | h5 | h5 | h5 | h5 | h5 <;>
      simp [getTurnRestrictions, hmt, h5]

/-- Witness for `turn_restrictions_none_cases`: four concrete "not
applicable" scenarios — a sidewalk lane, a road with no turn tags, a
token-count mismatch, and a literal `no` token. -/
theorem turn_restrictions_none_cases_witness :
    getTurnRestrictions ⟨1, 0, LaneType.Sidewalk, 10, 0, 1⟩
      ⟨0, [], [(1, LaneType.Sidewalk)], [], 0, 1, [], false⟩ = none ∧
    getTurnRestrictions ⟨1, 0, LaneType.Driving, 10, 0, 1⟩
      ⟨0, [], [(1, LaneType.Driving)], [], 0, 1, [], false⟩ = none ∧
    getTurnRestrictions ⟨1, 0, LaneType.Driving, 10, 0, 1⟩
      ⟨0, [(ENDPT_FWD, "1"), ("turn:lanes", "left|right")],
        [(1, LaneType.Driving)], [], 0, 1, [], false⟩ = none ∧
    getTurnRestrictions ⟨1, 0, LaneType.Driving, 10, 0, 1⟩
      ⟨0, [(ENDPT_FWD, "1"), ("turn:lanes", "no")],
        [(1, LaneType.Driving)], [], 0, 1, [], false⟩ = none :=
  ⟨(turn_restrictions_none_cases ⟨1, 0, LaneType.Sidewalk, 10, 0, 1⟩
      ⟨0, [], [(1, LaneType.Sidewalk)], [], 0, 1, [], false⟩).1 (by decide),
   (turn_restrictions_none_cases ⟨1, 0, LaneType.Driving, 10, 0, 1⟩
      ⟨0, [], [(1, LaneType.Driving)], [], 0, 1, [], false⟩).2.1 (by decide),
   (turn_restrictions_none_cases ⟨1, 0, LaneType.Driving, 10, 0, 1⟩
      ⟨0, [(ENDPT_FWD, "1"), ("turn:lanes", "left|right")],
        [(1, LaneType.Driving)], [], 0, 1, [], false⟩).2.2.1 "left|right" (by decide) (by decide),
   (turn_restrictions_none_cases ⟨1, 0, LaneType.Driving, 10, 0, 1⟩
      ⟨0, [(ENDPT_FWD, "1"), ("turn:lanes", "no")],
        [(1, LaneType.Driving)], [], 0, 1, [], false⟩).2.2.2 "no" (by decide) (by decide)⟩

/-- C4: when `get_turn_restrictions` returns a set, that set is the union
over the `';'`-separated pieces of the positionally matched token of the
piece table — `left`/`left\left` → {Left}; `right` → {Right}; `through` and
the empty piece → {Straight}; slight/merge/sharp right → {Straight, Right};
slight/merge/sharp left → {Straight, Left}; `reverse` → {Left};
unrecognized pieces contribute nothing — and for tag `"through|left"` on a
road with two driving lanes in that direction, the second lane yields
exactly {Left}. -/
theorem turn_restrictions_union (lane : Lane) (road : Road) :
    (∀ s, getTurnRestrictions lane road = some s →
      ∃ part, matchedToken lane road = some part ∧
        s = (rustSplit ';' part).foldr
          (fun p acc => (pieceTurns p).toFinset ∪ acc) ∅) ∧
    (pieceTurns "left").toFinset = {TurnType.Left} ∧
    (pieceTurns "left\\left").toFinset = {TurnType.Left} ∧
    (pieceTurns "right").toFinset = {TurnType.Right} ∧
    (pieceTurns "through").toFinset = {TurnType.Straight} ∧
    (pieceTurns "").toFinset = {TurnType.Straight} ∧
    (∀ p, p = "slight_right" ∨ p = "slight right" ∨ p = "merge_to_right" ∨
      p = "sharp_right" →
      (pieceTurns p).toFinset = {TurnType.Straight, TurnType.Right}) ∧
    (∀ p, p = "slight_left" ∨ p = "slight left" ∨ p = "merge_to_left" ∨
      p = "sharp_left" →
      (pieceTurns p).toFinset = {TurnType.Straight, TurnType.Left}) ∧
    (pieceTurns "reverse").toFinset = {TurnType.Left} ∧
    (∀ p, p ∉ ["left", "left\\left", "right", "through", "",
        "slight_right", "slight right", "merge_to_right", "sharp_right",
        "slight_left", "slight left", "merge_to_left", "sharp_left",
        "reverse"] → (pieceTurns p).toFinset = ∅) ∧
    getTurnRestrictions ⟨2, 0, LaneType.Driving, 10, 0, 1⟩
      ⟨0, [(ENDPT_FWD, "1"), ("turn:lanes", "through|left")],
        [(1, LaneType.Driving), (2, LaneType.Driving)], [], 0, 1, [], false⟩ =
      some {TurnType.Left} := by
  refine ⟨?_, by decide, by decide, by decide, by decide, by decide, ?_, ?_,
    by decide, ?_, by decide⟩
  · intro s h
    obtain ⟨part, hmt, -, -, hs⟩ := getTurnRestrictions_some_eq lane road s h
    exact ⟨part, hmt, by rw [hs, toFinset_flatMap]⟩
  · intro p hp
    rcases hp with h | h | h | h <;> subst h <;> decide
  · intro p hp
    rcases hp with h | h | h | h <;> subst h <;> decide
  · intro p hp
    simp only [List.mem_cons, List.not_mem_nil, or_false] at hp
    push_neg at hp
    obtain ⟨h1, h2, h3, h4, h5, h6, h7, h8, h9, h10, h11, h12, h13, h14⟩ := hp
    simp [pieceTurns, h1, h2, h3, h4, h5, h6, h7, h8, h9, h10, h11, h12, h13,
      h14]

/-- Witness for `turn_restrictions_union`: the existence conjunct applied at
the concrete `"through|left"` example. -/
theorem turn_restrictions_union_witness :
    ∃ part, matchedToken ⟨2, 0, LaneType.Driving, 10, 0, 1⟩
        ⟨0, [(ENDPT_FWD, "1"), ("turn:lanes", "through|left")],
          [(1, LaneType.Driving), (2, LaneType.Driving)], [], 0, 1, [], false⟩ = some part ∧
      ({TurnType.Left} : Finset TurnType) = (rustSplit ';' part).foldr
        (fun p acc => (pieceTurns p).toFinset ∪ acc) ∅ :=
  (turn_restrictions_union ⟨2, 0, LaneType.Driving, 10, 0, 1⟩
    ⟨0, [(ENDPT_FWD, "1"), ("turn:lanes", "through|left")],
      [(1, LaneType.Driving), (2, LaneType.Driving)], [], 0, 1, [], false⟩).1
    {TurnType.Left} (by decide)

/-- C2 counterexample: a driving lane whose applicable tag is the single
unrecognized token `"xyz"` (token count 1 = lane count 1).  The matched
token is not a no-restriction token, yet `get_turn_restrictions` returns
`Some ∅` — an empty blocking set — rather than `None`. -/
theorem turn_restrictions_empty_cex :
    getTurnRestrictions ⟨1, 0, LaneType.Driving, 10, 0, 1⟩
      ⟨0, [(ENDPT_FWD, "1"), ("turn:lanes", "xyz")],
        [(1, LaneType.Driving)], [], 0, 1, [], false⟩ = some ∅ ∧
    matchedToken ⟨1, 0, LaneType.Driving, 10, 0, 1⟩
      ⟨0, [(ENDPT_FWD, "1"), ("turn:lanes", "xyz")],
        [(1, LaneType.Driving)], [], 0, 1, [], false⟩ = some "xyz" ∧
    ¬("xyz" = "no" ∨ "xyz" = "none" ∨ "xyz" = "yes" ∨ "xyz" = "psv" ∨
      "xyz" = "bus" ∨ "xyz" = "") := by
  decide

/-- C2 amended: when `get_turn_restrictions` returns a set, that set is
empty exactly when every `';'` piece of the matched token is unrecognized
(maps to no turn type); such an empty set is returned as `Some ∅`, not
reported as `None`. -/
theorem turn_restrictions_empty_iff (lane : Lane) (road : Road)
    (s : Finset TurnType) (h : getTurnRestrictions lane road = some s) :
    ∃ part, matchedToken lane road = some part ∧
      (s = ∅ ↔ ∀ p ∈ rustSplit ';' part, pieceTurns p = []) := by
  obtain ⟨part, hmt, -, -, hs⟩ := getTurnRestrictions_some_eq lane road s h
  refine ⟨part, hmt, ?_⟩
  subst hs
  rw [List.toFinset_eq_empty_iff, List.flatMap_eq_nil_iff]

/-- Witness for `turn_restrictions_empty_iff` at the `"xyz"` example. -/
theorem turn_restrictions_empty_iff_witness :
    ∃ part, matchedToken ⟨1, 0, LaneType.Driving, 10, 0, 1⟩
        ⟨0, [(ENDPT_FWD, "1"), ("turn:lanes", "xyz")],
          [(1, LaneType.Driving)], [], 0, 1, [], false⟩ = some part ∧
      ((∅ : Finset TurnType) = ∅ ↔ ∀ p ∈ rustSplit ';' part, pieceTurns p = []) :=
  turn_restrictions_empty_iff ⟨1, 0, LaneType.Driving, 10, 0, 1⟩
    ⟨0, [(ENDPT_FWD, "1"), ("turn:lanes", "xyz")], [(1, LaneType.Driving)],
      [], 0, 1, [], false⟩
    ∅ (by decide)

end Abstreet

namespace Abstreet

/-- Helper: a successful `graph.get` means the agent is among the graph's
keys. -/
lemma graphGet_mem_keys (g : BlockingGraph) (a : Nat) (v)
    (h : graphGet g a = some v) : a ∈ g.map Prod.fst := by
  unfold graphGet at h
  cases hf : g.find? (fun p => p.1 == a) with
  | none => rw [hf] at h; cases h
  | some p =>
    have hm := List.mem_of_find?_eq_some hf
    have hp := List.find?_some hf
    have he : p.1 = a := by simpa using hp
    exact he ▸ List.mem_map_of_mem Prod.fst hm

/-- Helper: the root-cause loop never runs out of fuel once the fuel
exceeds the number of unvisited graph keys: every continuing iteration
moves a fresh key into `seen`. -/
lemma traceAux_isSome (g : BlockingGraph) (pos : List Nat) :
    ∀ (fuel : Nat) (seen batch : List Nat) (current : Nat),
      ((g.map Prod.fst).toFinset \ seen.toFinset).card < fuel →
      (traceRootCauseAux g pos fuel seen batch current).isSome := by
  intro fuel
  induction fuel with
  | zero => intro seen batch current h; exact absurd h (by omega)
  | succ n ih =>
    intro seen batch current h
    unfold traceRootCauseAux
    by_cases hseen : current ∈ seen
    · simp [hseen]
    · have hc : seen.contains current = false := by
        simpa using hseen
      simp only [hc, Bool.false_eq_true, if_false]
      cases harrow : arrowFor g pos current with
      | error e => simp
      | ok b =>
        cases hget : graphGet g current with
        | none => simp
        | some v =>
          rcases v with ⟨d, c⟩
          cases c with
          | Intersection i => simp
          | Agent a =>
            refine ih _ _ _ ?_
            have hkeys := graphGet_mem_keys g current _ hget
            have hx : current ∈ (g.map Prod.fst).toFinset \ seen.toFinset :=
              Finset.mem_sdiff.mpr ⟨List.mem_toFinset.mpr hkeys,
                fun hcm => hseen (List.mem_toFinset.mp hcm)⟩
            have hlt : ((g.map Prod.fst).toFinset \
                (current :: seen).toFinset).card <
                ((g.map Prod.fst).toFinset \ seen.toFinset).card := by
              rw [List.toFinset_cons, Finset.sdiff_insert]
              exact Finset.card_erase_lt_of_mem hx
            omega

/-- Helper: under the blocking-graph invariant (every graph key has a
recorded position), `arrow_for` never panics. -/
lemma arrowFor_no_panic (g : BlockingGraph) (pos : List Nat)
    (hpos : ∀ a ∈ g.map Prod.fst, pos.contains a) (id : Nat) :
    arrowFor g pos id ≠ Except.error () := by
  unfold arrowFor
  cases hget : graphGet g id with
  | none => simp
  | some v =>
    have hid : id ∈ pos := by
      simpa using hpos id (graphGet_mem_keys g id _ hget)
    rcases v with ⟨d, c⟩
    cases c with
    | Agent a =>
      by_cases ha : a ∈ pos <;> simp [ha, hid]
    | Intersection i => simp [hid]

/-- Helper: under the same invariant the root-cause loop never panics. -/
lemma traceAux_no_panic (g : BlockingGraph) (pos : List Nat)
    (hpos : ∀ a ∈ g.map Prod.fst, pos.contains a) :
    ∀ (fuel : Nat) (seen batch : List Nat) (current : Nat),
      traceRootCauseAux g pos fuel seen batch current ≠
        some (Except.error ()) := by
  intro fuel
  induction fuel with
  | zero => intro seen batch current; simp [traceRootCauseAux]
  | succ n ih =>
    intro seen batch current
    unfold traceRootCauseAux
    by_cases hseen : current ∈ seen
    · simp [hseen]
    · have hc : seen.contains current = false := by
        simpa using hseen
      simp only [hc, Bool.false_eq_true, if_false]
      cases harrow : arrowFor g pos current with
      | error e =>
        cases e
        exact absurd harrow (arrowFor_no_panic g pos hpos current)
      | ok b =>
        cases hget : graphGet g current with
        | none => simp
        | some v =>
          rcases v with ⟨d, c⟩
          cases c with
          | Intersection i => simp
          | Agent a => exact ih _ _ _

/-- C1: for every finite blocking graph and start agent, `trace_root_cause`
terminates within one hop per graph entry; under the data model's invariant
(every graph key is an active agent with a position) it returns the
terminal reason fixed by the first stopping condition met while following
Agent→Agent edges; on the chain A→B→Intersection-100 it stops with the
intersection's identity after 2 hops, and on the 3-agent cycle A→B→C→A it
stops and reports "cycle involving A" rather than looping. -/
theorem trace_root_cause_terminates :
    (∀ (g : BlockingGraph) (pos : List Nat) (start : Nat),
      ∃ r, traceRootCause g pos start = some r) ∧
    (∀ (g : BlockingGraph) (pos : List Nat) (start : Nat),
      (∀ a ∈ g.map Prod.fst, pos.contains a) →
      ∃ hops reason,
        traceRootCause g pos start = some (Except.ok (hops, reason))) ∧
    traceRootCause
      [(0, (1 : ℚ), DelayCause.Agent 1), (1, 1, DelayCause.Intersection 100)]
      [0, 1] 0 =
      some (Except.ok ([0, 1], TraceReason.intersection 100)) ∧
    traceRootCause
      [(0, (1 : ℚ), DelayCause.Agent 1), (1, 1, DelayCause.Agent 2),
        (2, 1, DelayCause.Agent 0)] [0, 1, 2] 0 =
      some (Except.ok ([0, 1, 2], TraceReason.cycle 0)) := by
  have hterm : ∀ (g : BlockingGraph) (pos : List Nat) (start : Nat),
      ∃ r, traceRootCause g pos start = some r := by
    intro g pos start
    have hcard : ((g.map Prod.fst).toFinset \ ([] : List Nat).toFinset).card <
        g.length + 1 := by
      have h1 : ((g.map Prod.fst).toFinset \ ([] : List Nat).toFinset).card ≤
          (g.map Prod.fst).toFinset.card :=
        Finset.card_le_card (Finset.sdiff_subset)
      have h2 : (g.map Prod.fst).toFinset.card ≤ (g.map Prod.fst).length :=
        (g.map Prod.fst).toFinset_card_le
      simp only [List.length_map] at h2
      omega
    exact Option.isSome_iff_exists.mp
      (traceAux_isSome g pos (g.length + 1) [] [] start hcard)
  refine ⟨hterm, ?_, by rfl, by rfl⟩
  intro g pos start hpos
  obtain ⟨r, hr⟩ := hterm g pos start
  cases r with
  | error e =>
    cases e
    exact absurd hr (traceAux_no_panic g pos hpos (g.length + 1) [] [] start)
  | ok out =>
    rcases out with ⟨hops, reason⟩
    exact ⟨hops, reason, hr⟩

/-- Witness for `trace_root_cause_terminates`: the invariant conjunct
applied to the concrete chain graph. -/
theorem trace_root_cause_terminates_witness :
    ∃ hops reason, traceRootCause
      [(0, (1 : ℚ), DelayCause.Agent 1), (1, 1, DelayCause.Intersection 100)]
      [0, 1] 0 = some (Except.ok (hops, reason)) :=
  trace_root_cause_terminates.2.1
    [(0, (1 : ℚ), DelayCause.Agent 1), (1, 1, DelayCause.Intersection 100)]
    [0, 1] 0 (by decide)

end Abstreet


namespace Abstreet

/-- Helper: a successful `get_l` means the lane id is in the map's lane
table. -/
lemma get_l_mem (m : MapModel) (x : Nat) (l : Lane) (h : m.get_l x = some l) :
    x ∈ m.lanes.map Lane.id := by
  unfold MapModel.get_l at h
  have hm := List.mem_of_find?_eq_some h
  have hp := List.find?_some h
  have he : l.id = x := by simpa using hp
  exact he ▸ List.mem_map_of_mem Lane.id hm

/-- Helper: every continuing iteration of the block-tracing loop pushes the
current — previously unvisited, and present in the lane table — lane onto
the visited set. -/
lemma traceStep_next {Pt : Type} [DecidableEq Pt] (m : MapModel)
    (geo : TraceGeom Pt) (start : Nat) (st st' : TraceState Pt)
    (h : traceStep m geo start st = TraceStep.next st') :
    st'.visited = st.current :: st.visited ∧ st.current ∉ st.visited ∧
    st.current ∈ m.lanes.map Lane.id := by
  unfold traceStep at h
  repeat' split at h
  all_goals try (cases h)
  all_goals refine ⟨rfl, fun hmem => ?_,
    get_l_mem m st.current _ (by assumption)⟩
  all_goals simp_all

/-- Helper: a failing iteration only arises when the current lane was
already visited. -/
lemma traceStep_fail {Pt : Type} [DecidableEq Pt] (m : MapModel)
    (geo : TraceGeom Pt) (start : Nat) (st : TraceState Pt)
    (h : traceStep m geo start st = TraceStep.fail) :
    st.current ∈ st.visited := by
  unfold traceStep at h
  repeat' split at h
  all_goals try (cases h)
  all_goals simp_all

/-- Helper: the block-tracing loop never runs out of fuel once the fuel
exceeds the number of unvisited lanes. -/
lemma traceLoop_isSome {Pt : Type} [DecidableEq Pt] (m : MapModel)
    (geo : TraceGeom Pt) (start : Nat) :
    ∀ (fuel : Nat) (st : TraceState Pt),
      ((m.lanes.map Lane.id).toFinset \ st.visited.toFinset).card < fuel →
      (traceLoop m geo start fuel st).isSome := by
  intro fuel
  induction fuel with
  | zero => intro st h; exact absurd h (by omega)
  | succ n ih =>
    intro st h
    unfold traceLoop
    cases hstep : traceStep m geo start st with
    | panic => simp
    | fail => simp
    | done pts visited => simp
    | next st' =>
      refine ih st' ?_
      obtain ⟨hv, hnv, hmem⟩ := traceStep_next m geo start st st' hstep
      have hx : st.current ∈
          (m.lanes.map Lane.id).toFinset \ st.visited.toFinset :=
        Finset.mem_sdiff.mpr ⟨List.mem_toFinset.mpr hmem,
          fun hc => hnv (List.mem_toFinset.mp hc)⟩
      have hlt : ((m.lanes.map Lane.id).toFinset \
          st'.visited.toFinset).card <
          ((m.lanes.map Lane.id).toFinset \ st.visited.toFinset).card := by
        rw [hv, List.toFinset_cons, Finset.sdiff_insert]
        exact Finset.card_erase_lt_of_mem hx
      omega

/-- C5: `trace_around_block` terminates on every map (and every behavior of
the out-of-scope geometry): with fuel one more than the number of lanes the
loop always stops — each iteration either panics on malformed topology,
completes the walk, fails, or inserts the previously-unvisited current lane
into the visited set (second conjunct), and a revisit-failure only arises
when the current lane was already visited (third conjunct); hence the
iteration count is bounded by the number of lanes and a revisit before
closing yields `None`, never an infinite loop. -/
theorem trace_around_block_terminates :
    (∀ (Pt : Type) [DecidableEq Pt] (m : MapModel) (geo : TraceGeom Pt)
      (start : Nat), ∃ out, traceAroundBlock m geo start = some out) ∧
    (∀ (Pt : Type) [DecidableEq Pt] (m : MapModel) (geo : TraceGeom Pt)
      (start : Nat) (st st' : TraceState Pt),
      traceStep m geo start st = TraceStep.next st' →
      st'.visited = st.current :: st.visited ∧ st.current ∉ st.visited) ∧
    (∀ (Pt : Type) [DecidableEq Pt] (m : MapModel) (geo : TraceGeom Pt)
      (start : Nat) (st : TraceState Pt),
      traceStep m geo start st = TraceStep.fail →
      st.current ∈ st.visited) := by
  refine ⟨?_, ?_, ?_⟩
  · intro Pt _ m geo start
    unfold traceAroundBlock
    split
    · exact ⟨_, rfl⟩
    · split
      · exact ⟨_, rfl⟩
      · have hcard : ((m.lanes.map Lane.id).toFinset \
            (([] : List Nat)).toFinset).card < m.lanes.length + 1 := by
          have h1 : ((m.lanes.map Lane.id).toFinset \
              (([] : List Nat)).toFinset).card ≤
              (m.lanes.map Lane.id).toFinset.card :=
            Finset.card_le_card (Finset.sdiff_subset)
          have h2 : (m.lanes.map Lane.id).toFinset.card ≤
              (m.lanes.map Lane.id).length :=
            (m.lanes.map Lane.id).toFinset_card_le
          simp only [List.length_map] at h2
          omega
        exact Option.isSome_iff_exists.mp
          (traceLoop_isSome m geo start (m.lanes.length + 1) _ hcard)
  · intro Pt _ m geo start st st' h
    exact ⟨(traceStep_next m geo start st st' h).1,
      (traceStep_next m geo start st st' h).2.1⟩
  · intro Pt _ m geo start st h
    exact traceStep_fail m geo start st h

/-- Witness for `trace_around_block_terminates`: on a concrete 2-road map a
continuing step records lane 0 as visited, and a step from an
already-visited lane fails. -/
theorem trace_around_block_terminates_witness :
    ((⟨[], 1, true, [0]⟩ : TraceState Nat).visited =
      (⟨([] : List Nat), 0, true, []⟩ : TraceState Nat).current ::
        (⟨([] : List Nat), 0, true, []⟩ : TraceState Nat).visited ∧
      (⟨([] : List Nat), 0, true, []⟩ : TraceState Nat).current ∉
        (⟨([] : List Nat), 0, true, []⟩ : TraceState Nat).visited) ∧
    (⟨([] : List Nat), 0, true, [0]⟩ : TraceState Nat).current ∈
      (⟨([] : List Nat), 0, true, [0]⟩ : TraceState Nat).visited :=
  ⟨trace_around_block_terminates.2.1 Nat
    ⟨[⟨0, 0, LaneType.Driving, 10, 0, 1⟩, ⟨1, 1, LaneType.Driving, 10, 1, 2⟩],
      [⟨0, [], [], [], 0, 1, [0], false⟩, ⟨1, [], [], [], 1, 2, [1], false⟩],
      [⟨1, [0, 1]⟩]⟩
    ⟨fun _ _ => some [], fun _ _ _ => some [], fun _ => some ()⟩ 5
    ⟨[], 0, true, []⟩ ⟨[], 1, true, [0]⟩ rfl,
   trace_around_block_terminates.2.2 Nat
    ⟨[⟨0, 0, LaneType.Driving, 10, 0, 1⟩, ⟨1, 1, LaneType.Driving, 10, 1, 2⟩],
      [⟨0, [], [], [], 0, 1, [0], false⟩, ⟨1, [], [], [], 1, 2, [1], false⟩],
      [⟨1, [0, 1]⟩]⟩
    ⟨fun _ _ => some [], fun _ _ _ => some [], fun _ => some ()⟩ 5
    ⟨[], 0, true, [0]⟩ rfl⟩

end Abstreet

namespace Abstreet

/-- C9: if a `--save_at` time string is supplied to the headless driver and
cannot be parsed as a Tick, the program panics with a diagnostic naming the
bad string before the first `sim.step` call — under an unparseable save_at
no stepping ever begins; with a parseable (or absent) save_at the stepping
loop runs. -/
theorem headless_unparseable_save_at (s : String)
    (parse : String → Option Nat) (fuel : Nat) :
    (parse s = none → headlessRun (some s) parse fuel =
      Except.error ("Couldn't parse time " ++ s)) ∧
    (∀ t, parse s = some t → headlessRun (some s) parse fuel =
      Except.ok fuel) ∧
    headlessRun none parse fuel = Except.ok fuel := by
  refine ⟨?_, ?_, rfl⟩
  · intro h
    simp [headlessRun, headlessSaveAt, h]
  · intro t ht
    simp [headlessRun, headlessSaveAt, ht]

/-- Witness for `headless_unparseable_save_at` at the always-failing parse
function and the string "bogus". -/
theorem headless_unparseable_save_at_witness :
    headlessRun (some "bogus") (fun _ => none) 5 =
      Except.error ("Couldn't parse time " ++ "bogus") ∧
    headlessRun (some "30") (fun _ => some 30) 5 = Except.ok 5 :=
  ⟨(headless_unparseable_save_at "bogus" (fun _ => none) 5).1 rfl,
   (headless_unparseable_save_at "30" (fun _ => some 30) 5).2.1 30 rfl⟩

end Abstreet
